import Mathlib

/-!
Verification of the selection-state and conversion-dispatcher behaviour of the
Conversational Unit Converter (src/uc2.py), as a shallow embedding in Lean.

The Streamlit script is straight-line code over session state; the embedding
models each state-updating fragment as a pure function on explicit state:
  * the static category table (lines 29-40),
  * the category-change reset of from_unit/to_unit (lines 50-53),
  * the "to" candidate list and the default to_unit chosen after a from-unit
    change (lines 75-90),
  * the prompt/payload construction and response extraction of
    get_conversion_response (lines 93-131), with Python exceptions modelled
    as Except values carrying the exception message str(e),
  * the bounded, deduplicated conversion history (lines 147-154).
-/

namespace UC

/-- Static table of unit categories (src/uc2.py lines 29-40), in source order. -/
def unit_categories : List (String × List String) :=
  [("Length", ["mm", "cm", "m", "km", "in", "ft", "yd", "mi"]),
   ("Weight/Mass", ["mg", "g", "kg", "oz", "lb", "ton"]),
   ("Volume", ["ml", "L", "gal", "pt", "qt", "fl oz", "cm³", "m³"]),
   ("Temperature", ["°C", "°F", "K"]),
   ("Time", ["sec", "min", "hr", "day", "week", "month", "year"]),
   ("Area", ["mm²", "cm²", "m²", "km²", "in²", "ft²", "acre", "hectare"]),
   ("Speed", ["m/s", "km/h", "mph", "knot"]),
   ("Pressure", ["Pa", "kPa", "bar", "psi", "atm"]),
   ("Energy", ["J", "cal", "kcal", "kWh", "eV"]),
   ("Data", ["bit", "byte", "KB", "MB", "GB", "TB"])]

/-- The unit-selection part of st.session_state. -/
structure SelectionState where
  current_category : String
  from_unit : String
  to_unit : String
deriving DecidableEq, Repr

/-- Unit reset on a category change (lines 51-52): from_unit := units[0],
to_unit := units[1] if the category has more than one unit else units[0].
Python would raise IndexError on an empty unit list (none case); every list in
the table is non-empty. -/
def resetUnits : List String → Option (String × String)
  | [] => none
  | [u] => some (u, u)
  | u :: v :: _ => some (u, v)

/-- Category selection (lines 50-53): the stored units are reset exactly when
no selection state exists yet or the stored current_category differs from the
newly selected category; the selected category is stored as current. The none
result models Python's KeyError on a category absent from the table (the
selectbox only offers table keys). -/
def selectCategory (s : Option SelectionState) (cat : String) : Option SelectionState :=
  match List.lookup cat unit_categories with
  | none => none
  | some units =>
    match s with
    | some st =>
      if st.current_category = cat then some st
      else (resetUnits units).map (fun p => ⟨cat, p.1, p.2⟩)
    | none => (resetUnits units).map (fun p => ⟨cat, p.1, p.2⟩)

/-- The "to" candidate list (lines 75-77): every unit of the category except
from_unit, with from_unit appended once at the end. -/
def to_options (units : List String) (from_unit : String) : List String :=
  (units.filter (fun x => x ≠ from_unit)) ++ [from_unit]

/-- The to_unit stored after the To-Unit selectbox renders (lines 79-90): the
box shows to_options with default index = index of the previous to_unit when
that unit belongs to the current category and to the candidate list, else 0;
the value stored back is the candidate at the default index. -/
def select_to_unit (units : List String) (from_unit prev_to_unit : String) : String :=
  (to_options units from_unit).getD
    (if prev_to_unit ∈ units then
      (if prev_to_unit ∈ to_options units from_unit then
        (to_options units from_unit).indexOf prev_to_unit
      else 0)
    else 0) ""

/-- Decoded JSON values as returned by response.json(). Numbers are modelled
as integers; no fractional number occurs in any claim. -/
inductive Json where
  | null : Json
  | bool : Bool → Json
  | num : Int → Json
  | str : String → Json
  | arr : List Json → Json
  | obj : List (String × Json) → Json

/-- Python type name of a decoded JSON value, as it appears in the
AttributeError message raised by calling .get on a non-dict. -/
def pyTypeName : Json → String
  | .null => "NoneType"
  | .bool _ => "bool"
  | .num _ => "int"
  | .str _ => "str"
  | .arr _ => "list"
  | .obj _ => "dict"

/-- Python str() of a decoded JSON value, used by the final else branch of the
extraction (line 126). That branch only ever receives scalars: lists and dicts
are consumed by the isinstance branches first, so the container cases here are
unreachable from extract_result and are given a placeholder rendering. -/
def pyStr : Json → String
  | .null => "None"
  | .bool b => if b then "True" else "False"
  | .num n => toString n
  | .str s => s
  | .arr _ => ""
  | .obj _ => ""

/-- Python dict.get(key, default) on a decoded JSON object. -/
def dictGet (kvs : List (String × Json)) (k : String) (d : Json) : Json :=
  (List.lookup k kvs).getD d

/-- Response-shape handling of get_conversion_response (lines 121-126): a list
yields element 0's "generated_text" field with default "" (an empty list makes
response_json[0] raise IndexError, and a non-dict element 0 makes .get raise
AttributeError, both with CPython's message); a dict yields its
"generated_text" field with default ""; anything else is passed to str().
Errors carry str(e) and are caught by the handler in get_conversion_response. -/
def extract_result : Json → Except String Json
  | .arr [] => .error "list index out of range"
  | .arr (x :: _) =>
    match x with
    | .obj kvs => .ok (dictGet kvs "generated_text" (.str ""))
    | other => .error ("'" ++ pyTypeName other ++ "' object has no attribute 'get'")
  | .obj kvs => .ok (dictGet kvs "generated_text" (.str ""))
  | other => .ok (.str (pyStr other))

/-- Body of the try/except of get_conversion_response (lines 117-131). The
argument is the outcome of requests.post + response.json(): ok with the decoded
JSON, or error with str(e) of the exception raised (network error, malformed
JSON, timeout). Any error, whether from the request or from the extraction
itself, is returned as the apologetic display string. -/
def get_conversion_response (network_result : Except String Json) : Json :=
  match network_result with
  | .error msg => .str ("Sorry, I encountered an error: " ++ msg)
  | .ok j =>
    match extract_result j with
    | .ok r => r
    | .error msg => .str ("Sorry, I encountered an error: " ++ msg)

/-- The request URL (line 94). -/
def api_url (model : String) : String :=
  "https://api-inference.huggingface.co/models/" ++ model

/-- The f-string prompt template (lines 101-106), byte for byte, with value
already rendered to its decimal string. -/
def conversion_prompt (value from_unit to_unit category : String) : String :=
  "\n    You are a helpful and friendly unit converter assistant. \n    Please convert "
    ++ value ++ " " ++ from_unit ++ " to " ++ to_unit ++ " in the category of "
    ++ category
    ++ ".\n    Respond in a conversational tone as if speaking to a friend. \n    Include the numeric result and a brief explanation of how the conversion works.\n    "

/-- Generation parameters of the request payload (lines 110-114). The Python
float 0.7 is the exact rational 0.7 = 7/10 here. -/
structure GenParams where
  temperature : ℚ
  max_new_tokens : ℕ
  return_full_text : Bool
deriving DecidableEq, Repr

/-- JSON body of the POST request (lines 108-115). -/
structure RequestPayload where
  inputs : String
  parameters : GenParams
deriving DecidableEq, Repr

/-- The payload built for one conversion request. -/
def conversion_payload (value from_unit to_unit category : String) : RequestPayload :=
  { inputs := conversion_prompt value from_unit to_unit category,
    parameters := { temperature := 0.7, max_new_tokens := 150, return_full_text := false } }

/-- The history entry built on line 150. Because the conditional expression
binds looser than the f-string, the query prefix and ellipsis appear only when
the response exceeds 100 characters; otherwise the entry is the bare response. -/
def history_entry (query response : String) : String :=
  if response.length > 100 then query ++ " → " ++ (response.take 100) ++ "..."
  else response

/-- One history update on the Convert click (lines 150-154): skip if the entry
is already present anywhere; otherwise insert at the front and, if the length
now exceeds 5, pop the last (oldest) element. -/
def insert_history (history : List String) (entry : String) : List String :=
  if entry ∈ history then history
  else if (entry :: history).length > 5 then (entry :: history).dropLast
  else entry :: history

/-- Histories reachable in a session: the initial empty list (line 148) and
anything obtained from a reachable history by one Convert-click update. -/
inductive ReachableHistory : List String → Prop where
  | init : ReachableHistory []
  | step : ∀ h e, ReachableHistory h → ReachableHistory (insert_history h e)

/-- Every unit of the category appears in the "to" candidate list: either it
survives the filter or it is the appended fallback. -/
theorem mem_to_options_of_mem {units : List String} {u x : String} (hx : x ∈ units) :
    x ∈ to_options units u := by
  unfold to_options
  by_cases hxu : x = u
  · subst hxu
    exact List.mem_append_right _ (List.mem_singleton_self x)
  · exact List.mem_append_left _ (List.mem_filter.mpr ⟨hx, by simp [hxu]⟩)

/-- Claim C2: for every category and every chosen from_unit u in it, the "to"
candidate list is the category's ordered unit list with u removed followed by
u appended once; its length equals the category's size and it has no
duplicates. -/
theorem C2_to_options_spec :
    ∀ p ∈ unit_categories, ∀ u ∈ p.2,
      to_options p.2 u = p.2.erase u ++ [u] ∧
      (to_options p.2 u).length = p.2.length ∧
      (to_options p.2 u).Nodup := by decide

/-- Witness for C2 at category Length and from_unit "m". -/
theorem C2_witness :
    to_options ["mm", "cm", "m", "km", "in", "ft", "yd", "mi"] "m"
      = (["mm", "cm", "m", "km", "in", "ft", "yd", "mi"] : List String).erase "m" ++ ["m"] ∧
    (to_options ["mm", "cm", "m", "km", "in", "ft", "yd", "mi"] "m").length
      = (["mm", "cm", "m", "km", "in", "ft", "yd", "mi"] : List String).length ∧
    (to_options ["mm", "cm", "m", "km", "in", "ft", "yd", "mi"] "m").Nodup :=
  C2_to_options_spec ("Length", ["mm", "cm", "m", "km", "in", "ft", "yd", "mi"])
    (by decide) "m" (by decide)

/-- Claim C1 as stated is false: in category Length (8 units), when the
previous to_unit is "cm" and the from-unit is changed to "cm", the previous
to_unit is found in the candidate list at the trailing fallback slot and stays
selected, so the stored to_unit equals the new from_unit although 7 other
candidates exist. -/
theorem C1_counterexample :
    List.lookup "Length" unit_categories = some ["mm", "cm", "m", "km", "in", "ft", "yd", "mi"] ∧
    2 ≤ (["mm", "cm", "m", "km", "in", "ft", "yd", "mi"] : List String).length ∧
    select_to_unit ["mm", "cm", "m", "km", "in", "ft", "yd", "mi"] "cm" "cm" = "cm" := by
  decide

/-- Claim C1 (amended): after a from-unit change to u, the stored default
to_unit equals the previous to_unit whenever that belongs to the category's
unit list — including when it equals u, via the trailing fallback slot — so
to_unit ≠ u is guaranteed only when the previous to_unit differs from u; when
the previous to_unit is not in the category, the first candidate is chosen,
which differs from u whenever the category has a unit other than u. -/
theorem C1_to_unit_after_from_change (units : List String) (u prev : String) :
    (prev ∈ units → select_to_unit units u prev = prev) ∧
    (prev ∉ units → ∀ w rest, units.filter (fun x => x ≠ u) = w :: rest →
      select_to_unit units u prev = w ∧ w ≠ u) := by
  constructor
  · intro hmem
    have hopts : prev ∈ to_options units u := mem_to_options_of_mem hmem
    have hlt : (to_options units u).indexOf prev < (to_options units u).length :=
      List.indexOf_lt_length.mpr hopts
    unfold select_to_unit
    rw [if_pos hmem, if_pos hopts, List.getD_eq_getElem _ _ hlt]
    exact List.getElem_indexOf hlt
  · intro hnot w rest hfil
    refine ⟨?_, ?_⟩
    · unfold select_to_unit
      rw [if_neg hnot]
      unfold to_options
      rw [hfil]
      rfl
    · have hw : w ∈ units.filter (fun x => x ≠ u) := hfil ▸ List.mem_cons_self w rest
      have hww := (List.mem_filter.mp hw).2
      simpa using hww

/-- Witness for the amended C1 in category Length: previous to_unit "ft"
survives a from-unit change to "cm". -/
theorem C1_witness :
    select_to_unit ["mm", "cm", "m", "km", "in", "ft", "yd", "mi"] "cm" "ft" = "ft" :=
  (C1_to_unit_after_from_change ["mm", "cm", "m", "km", "in", "ft", "yd", "mi"] "cm" "ft").1
    (by decide)

/-- Claim C3: selecting a category that differs from the stored
current_category resets from_unit to the category's first unit and to_unit to
its second unit when it has at least 2 units (else its first), and stores the
category as current. -/
theorem C3_selectCategory_reset
    (s : SelectionState) (cat : String) (units : List String) (u : String)
    (hlookup : List.lookup cat unit_categories = some units)
    (hne : s.current_category ≠ cat)
    (hhead : units.head? = some u) :
    selectCategory (some s) cat =
      some ⟨cat, u, if 2 ≤ units.length then units.getD 1 u else u⟩ := by
  cases units with
  | nil => simp at hhead
  | cons a t =>
    have ha : a = u := by simpa using hhead
    subst ha
    cases t with
    | nil => simp [selectCategory, hlookup, resetUnits, hne]
    | cons b t2 => simp [selectCategory, hlookup, resetUnits, hne]

/-- Witness for C3: switching from a Length state to Temperature resets the
units to °C and °F. -/
theorem C3_witness :
    selectCategory (some ⟨"Length", "mm", "cm"⟩) "Temperature" =
      some ⟨"Temperature", "°C", "°F"⟩ := by
  have h := C3_selectCategory_reset ⟨"Length", "mm", "cm"⟩ "Temperature"
    ["°C", "°F", "K"] "°C" (by decide) (by decide) (by decide)
  simpa using h

/-- Claim C4: the extraction policy — a list response yields element 0's
"generated_text" field with default "", a dict response yields its
"generated_text" field with default "", any other decoded value is
stringified — together with the three concrete payloads of the spec. -/
theorem C4_extraction_policy :
    (∀ (kvs : List (String × Json)) (rest : List Json),
      get_conversion_response (.ok (.arr (.obj kvs :: rest)))
        = (List.lookup "generated_text" kvs).getD (.str "")) ∧
    (∀ kvs : List (String × Json),
      get_conversion_response (.ok (.obj kvs))
        = (List.lookup "generated_text" kvs).getD (.str "")) ∧
    (∀ n : Int, get_conversion_response (.ok (.num n)) = .str (pyStr (.num n))) ∧
    (∀ s : String, get_conversion_response (.ok (.str s)) = .str (pyStr (.str s))) ∧
    (∀ b : Bool, get_conversion_response (.ok (.bool b)) = .str (pyStr (.bool b))) ∧
    (get_conversion_response (.ok .null) = .str (pyStr .null)) ∧
    (get_conversion_response (.ok (.arr [.obj [("generated_text", .str "X")]])) = .str "X") ∧
    (get_conversion_response (.ok (.obj [("generated_text", .str "Y")])) = .str "Y") ∧
    (get_conversion_response (.ok (.obj [])) = .str "") := by
  exact ⟨fun kvs rest => rfl, fun kvs => rfl, fun n => rfl, fun s => rfl,
    fun b => rfl, rfl, rfl, rfl, rfl⟩

/-- Claim C5: every exception raised during the request is swallowed and
returned as the apologetic display string carrying the exception's message, so
failure and success are both ordinary return values; in particular a network
exception with message "timeout". -/
theorem C5_error_swallowed :
    (∀ m : String, get_conversion_response (.error m)
      = .str ("Sorry, I encountered an error: " ++ m)) ∧
    get_conversion_response (.error "timeout")
      = .str "Sorry, I encountered an error: timeout" :=
  ⟨fun _ => rfl, rfl⟩

/-- Claim C10: an empty-list response does not produce the empty string —
indexing element 0 raises IndexError, the catch-all handler converts it, and
the apologetic error string is returned instead. -/
theorem C10_empty_list_response :
    get_conversion_response (.ok (.arr []))
      = .str ("Sorry, I encountered an error: " ++ "list index out of range") ∧
    get_conversion_response (.ok (.arr [])) ≠ .str "" := by
  refine ⟨rfl, fun h => ?_⟩
  exact absurd (Json.str.inj h) (by decide)

/-- One history update keeps the length within the cap of 5. -/
theorem insert_history_length_le (h : List String) (e : String) (hle : h.length ≤ 5) :
    (insert_history h e).length ≤ 5 := by
  unfold insert_history
  by_cases hmem : e ∈ h
  · rw [if_pos hmem]; exact hle
  · rw [if_neg hmem]
    by_cases hlen : (e :: h).length > 5
    · rw [if_pos hlen, List.length_dropLast, List.length_cons]
      omega
    · rw [if_neg hlen, List.length_cons]
      simp only [List.length_cons] at hlen
      omega

/-- One history update preserves freedom from duplicates. -/
theorem insert_history_nodup (h : List String) (e : String) (hnd : h.Nodup) :
    (insert_history h e).Nodup := by
  unfold insert_history
  by_cases hmem : e ∈ h
  · rw [if_pos hmem]; exact hnd
  · rw [if_neg hmem]
    have hcons : (e :: h).Nodup := List.nodup_cons.mpr ⟨hmem, hnd⟩
    by_cases hlen : (e :: h).length > 5
    · rw [if_pos hlen]
      exact hcons.sublist (List.dropLast_sublist _)
    · rw [if_neg hlen]; exact hcons

/-- Claim C6: every reachable history has at most 5 entries, and inserting a
fresh entry into a full history of 5 keeps the new entry at the front and
evicts the last (oldest) element. -/
theorem C6_history_cap :
    (∀ h : List String, ReachableHistory h → h.length ≤ 5) ∧
    (∀ (h : List String) (e : String), h.length = 5 → e ∉ h →
      insert_history h e = e :: h.dropLast) := by
  constructor
  · intro h hr
    induction hr with
    | init => simp
    | step h0 e _ ih => exact insert_history_length_le h0 e ih
  · intro h e hlen hmem
    unfold insert_history
    rw [if_neg hmem, if_pos (by simp [hlen])]
    cases h with
    | nil => simp at hlen
    | cons a t => rfl

/-- Witness for C6: a one-step reachable history is within the cap, and a full
history of 5 evicts its oldest entry. -/
theorem C6_witness :
    (["a"] : List String).length ≤ 5 ∧
    insert_history ["a", "b", "c", "d", "e"] "f"
      = "f" :: (["a", "b", "c", "d", "e"] : List String).dropLast :=
  ⟨C6_history_cap.1 ["a"] (ReachableHistory.step [] "a" ReachableHistory.init),
   C6_history_cap.2 ["a", "b", "c", "d", "e"] "f" (by decide) (by decide)⟩

/-- Claim C7: inserting an entry already present anywhere in the history
leaves it unchanged, and every reachable history is free of duplicates. -/
theorem C7_history_dedup :
    (∀ (h : List String) (e : String), e ∈ h → insert_history h e = h) ∧
    (∀ h : List String, ReachableHistory h → h.Nodup) := by
  constructor
  · intro h e hmem
    unfold insert_history
    rw [if_pos hmem]
  · intro h hr
    induction hr with
    | init => simp
    | step h0 e _ ih => exact insert_history_nodup h0 e ih

/-- Witness for C7: inserting the duplicate "x" into a history already holding
it changes nothing, and a two-step reachable history is duplicate-free. -/
theorem C7_witness :
    insert_history ["x", "y"] "x" = ["x", "y"] ∧
    (insert_history (insert_history [] "a") "b").Nodup :=
  ⟨C7_history_dedup.1 ["x", "y"] "x" (by decide),
   C7_history_dedup.2 _ (ReachableHistory.step _ "b" (ReachableHistory.step [] "a"
     ReachableHistory.init))⟩

/-- Claim C8 fails on the code: for a response of at most 100 characters the
conditional expression on line 150 stores the bare response, so the entry
carries no "value from to" query summary at all; the claimed format only
appears when the response exceeds 100 characters. -/
theorem C8_short_response_drops_query :
    history_entry "5.0 m to ft" "It is about 16.4 feet." = "It is about 16.4 feet." ∧
    history_entry "5.0 m to ft" "It is about 16.4 feet."
      ≠ "5.0 m to ft" ++ " → " ++ "It is about 16.4 feet." := by
  decide

/-- Claim C9: in the Length scenario with value rendered "5", from-unit "m"
and to-unit "ft", the prompt contains the substring "convert 5 m to ft" — it
occurs verbatim in lower case, which is containment up to letter case — and
the request parameters are temperature 0.7 and max_new_tokens 150. -/
theorem C9_scenario_prompt_and_params :
    (∃ pre post : String,
      (conversion_payload "5" "m" "ft" "Length").inputs
        = pre ++ "convert 5 m to ft" ++ post) ∧
    (conversion_payload "5" "m" "ft" "Length").parameters.temperature = 0.7 ∧
    (conversion_payload "5" "m" "ft" "Length").parameters.max_new_tokens = 150 := by
  refine ⟨⟨"\n    You are a helpful and friendly unit converter assistant. \n    Please ",
    " in the category of Length.\n    Respond in a conversational tone as if speaking to a friend. \n    Include the numeric result and a brief explanation of how the conversion works.\n    ",
    ?_⟩, rfl, rfl⟩
  set_option maxRecDepth 10000 in decide

end UC
